import Mathlib

/-!
Verification of the federated query translation layer:
the API-backed table translator (`openbb_tables.create_table_class` and the
`select` method of the table class it builds) and the backend adapter
(`integration_datanode.IntegrationDataNode`).

Machine integers do not occur on the verified paths; dates are modelled as
day counts (`Int`), numeric Python values as `Int`/`Rat`, and SQL literals
as optional strings.
-/

namespace FedQuery

/-! ## Calendar arithmetic

`parse_local_date` / `strftime('%Y-%m-%d')` work on calendar dates; we model a
date as its day count in the proleptic Gregorian calendar (day 0 = 0000-03-01),
using the standard civil-calendar conversion algorithm. -/

/-- Day count of a Gregorian calendar date (valid for year ≥ 1, 1 ≤ m ≤ 12). -/
def days_from_civil (y m d : Nat) : Nat :=
  let y' := if m ≤ 2 then y - 1 else y
  let era := y' / 400
  let yoe := y' % 400
  let mp := (m + 9) % 12
  let doy := (153 * mp + 2) / 5 + (d - 1)
  let doe := yoe * 365 + yoe / 4 - yoe / 100 + doy
  era * 146097 + doe

/-- Inverse of `days_from_civil`: day count to (year, month, day). -/
def civil_from_days (z : Nat) : Nat × Nat × Nat :=
  let era := z / 146097
  let doe := z % 146097
  let yoe := (doe - doe / 1460 + doe / 36524 - doe / 146096) / 365
  let y := yoe + era * 400
  let doy := doe - (365 * yoe + yoe / 4 - yoe / 100)
  let mp := (5 * doy + 2) / 153
  let d := doy - (153 * mp + 2) / 5 + 1
  let m := if mp < 10 then mp + 3 else mp - 9
  (if m ≤ 2 then y + 1 else y, m, d)

/-- Numeric value of a decimal digit character. -/
def digitVal (c : Char) : Option Nat :=
  if c.isDigit then some (c.toNat - 48) else none

/-- Parse a nonempty all-digit character list as a natural number. -/
def parseNatChars (cs : List Char) : Option Nat :=
  if cs = [] then none
  else cs.foldl (fun acc c =>
    match acc, digitVal c with
    | some n, some d => some (n * 10 + d)
    | _, _ => none) (some 0)

/-- Split a character list at each dash. -/
def splitDash : List Char → List (List Char)
  | [] => [[]]
  | c :: rest =>
    let r := splitDash rest
    if c = '-' then [] :: r
    else
      match r with
      | h :: t => (c :: h) :: t
      | [] => [[c]]

/-- Parse an ISO `YYYY-MM-DD` literal into a day count. -/
def parse_iso_date (s : String) : Option Int :=
  match splitDash s.toList with
  | [ys, ms, ds] =>
    match parseNatChars ys, parseNatChars ms, parseNatChars ds with
    | some y, some m, some d =>
      if 1 ≤ y ∧ 1 ≤ m ∧ m ≤ 12 ∧ 1 ≤ d ∧ d ≤ 31 then
        some (Int.ofNat (days_from_civil y m d))
      else none
    | _, _, _ => none
  | _ => none

/-- Modelled from the spec: `parse_local_date` (utilities/date_utils, a repository
module not under src/) parses a calendar-date literal.  The spec assigns it no
failure behavior ("translate the comparison ... using calendar-day granularity"),
so the model is total: ISO `YYYY-MM-DD` literals parse to their day count and any
other string is mapped to day 0. -/
def parse_local_date (s : String) : Int :=
  (parse_iso_date s).getD 0

/-- Left-pad a number to two digits. -/
def pad2 (n : Nat) : String :=
  if n < 10 then "0" ++ toString n else toString n

/-- Left-pad a number to four digits. -/
def pad4 (n : Nat) : String :=
  if n < 10 then "000" ++ toString n
  else if n < 100 then "00" ++ toString n
  else if n < 1000 then "0" ++ toString n
  else toString n

/-- The `date.strftime('%Y-%m-%d')` rendering of a day count. -/
def strftime_ymd (z : Int) : String :=
  let t := civil_from_days z.toNat
  pad4 t.1 ++ "-" ++ pad2 t.2.1 ++ "-" ++ pad2 t.2.2

/-- Day length of a `pd.Timedelta` string of the form `<n>d`. -/
def parse_interval_chars (s : String) : Option Nat :=
  match s.toList with
  | [] => none
  | cs =>
    if cs.getLast? = some 'd' then parseNatChars cs.dropLast else none

/-- Does the second list start with the first? -/
def startsWithChars : List Char → List Char → Bool
  | [], _ => true
  | _ :: _, [] => false
  | p :: ps, c :: cs => p = c && startsWithChars ps cs

/-- Does the pattern occur as a contiguous run of the list? -/
def hasInfixChars (pat : List Char) : List Char → Bool
  | [] => startsWithChars pat []
  | c :: cs => startsWithChars pat (c :: cs) || hasInfixChars pat cs

/-- Substring test on strings (models Python's `in` on str). -/
def strContains (s pat : String) : Bool :=
  hasInfixChars pat.toList s.toList

example : parse_local_date "2023-05-01" - 1 = parse_local_date "2023-04-30" := by decide
example : strftime_ymd (parse_local_date "2023-05-01") = "2023-05-01" := by decide
example : strftime_ymd (parse_local_date "2023-01-01" - 1) = "2022-12-31" := by decide
example : strContains "a Table not found b" "Table not found" = true := by decide

/-! ## Data model of `create_table_class`

`create_table_class(params_metadata, response_metadata, obb_function, func_docs,
provider)` closes over two pydantic field maps.  A field's metadata is used for
its required flag (`is_required()`), its rendered annotation name (the docstring
generator; for the response fields the code compares `annotation == 'datetime'`
directly), and its description. -/

/-- One pydantic field record: `is_required()`, the annotation (as the string the
code renders or compares it to), and `description`. -/
structure FieldMeta where
  required : Bool
  annot : String
  descr : String
deriving DecidableEq, Repr

/-- A pydantic metadata dict: `metadata['fields']` as an ordered association list. -/
structure Meta where
  fields : List (String × FieldMeta)
deriving DecidableEq, Repr

/-- Keys of `metadata['fields']`. -/
def metaKeys (m : Meta) : List String := m.fields.map (·.1)

/-- `mandatory_fields`: keys whose field `is_required()` is true (line 25). -/
def mandatory_fields (pm : Meta) : List String :=
  (pm.fields.filter (fun kv => kv.2.required)).map (·.1)

/-- `response_columns = list(response_metadata['fields'].keys())` (line 26). -/
def response_columns (rm : Meta) : List String := metaKeys rm

/-- Annotation of a response field, when declared. -/
def annotOf (rm : Meta) (k : String) : Option String :=
  (List.lookup k rm.fields).map (·.annot)

/-- A remote-call parameter value: a passed-through SQL literal (string or NULL),
or the numeric `query.limit.value`. -/
inductive PVal where
  | str (s : String)
  | null
  | nat (n : Nat)
deriving DecidableEq, Repr

/-- Python dict assignment `m[k] = v`: overwrite in place, else append. -/
def setk {β : Type} (m : List (String × β)) (k : String) (v : β) : List (String × β) :=
  match m with
  | [] => [(k, v)]
  | (k', v') :: rest => if k' = k then (k, v) :: rest else (k', v') :: setk rest k v

/-- Condition triple produced by `extract_comparison_conditions`.  Modelled from
the spec (§4.1; the extractor lives in utilities/sql_utils, not under src/):
a comparison leaf yields `(operator, column, literal)` and a disjunction yields
the `(or, None, None)` sentinel. -/
inductive Cond where
  | orOp
  | cmp (op : String) (field : String) (lit : Option String)
deriving DecidableEq, Repr

/-- Left operand of a condition triple, when it is a comparison. -/
def leftField : Cond → Option String
  | .orOp => none
  | .cmp _ f _ => some f

/-- The `[op, arg1, arg2]` list the select loop appends to `filters` (line 115). -/
def condTriple : Cond → Option (String × String × Option String)
  | .orOp => none
  | .cmp op f lit => some (op, f, lit)

/-- A `SELECT` target: star, a (possibly qualified) identifier, a function call
over an identifier argument (`full_target.args[0]`), or any other node shape
(window functions etc., line 180). -/
inductive Target where
  | star
  | ident (parts : List String)
  | func (name : String) (argParts : List String)
  | other
deriving DecidableEq, Repr

/-- Last identifier segment (`parts[-1]`). -/
def lastPart (ps : List String) : String := (ps.getLast?).getD ""

/-- ASCII lowercasing of one character (Python `str.lower` on identifiers). -/
def lowerChar (c : Char) : Char :=
  if 65 ≤ c.toNat ∧ c.toNat ≤ 90 then Char.ofNat (c.toNat + 32) else c

/-- ASCII lowercasing of a string. -/
def lowerStr (s : String) : String := ⟨s.toList.map lowerChar⟩

/-- `parts[-1].lower()`. -/
def lowerLast (ps : List String) : String := lowerStr (lastPart ps)

/-- The slice of `ast.Select` that `select` consumes: the target list, the
extracted condition triples of the WHERE tree, `order_by` (modelled as an
optional sort column with an ascending flag) and `limit.value`. -/
structure Query where
  targets : List Target
  conds : List Cond
  order_by : Option (String × Bool)
  limit : Option Nat
deriving DecidableEq, Repr

/-- A pandas DataFrame, as the select pipeline observes it: named columns and
rows of optional cells (None/NaN modelled as `none`). -/
structure DF where
  cols : List String
  rows : List (List (Option String))
deriving DecidableEq, Repr

/-- The dataframe `obbject.to_df()` yields: column data plus an optional
`DatetimeIndex` (name and values), which `reset_index` materializes (148-149). -/
structure ObbDF where
  dtIndexName : Option String
  dtIndexVals : List (Option String)
  cols : List String
  rows : List (List (Option String))
deriving DecidableEq, Repr

/-- `result.reset_index(inplace=True)` when the index is a `DatetimeIndex`
(lines 147-149): the index becomes the leading column. -/
def reset_index (d : ObbDF) : DF :=
  match d.dtIndexName with
  | some nm => ⟨nm :: d.cols, List.zipWith (fun v r => v :: r) d.dtIndexVals d.rows⟩
  | none => ⟨d.cols, d.rows⟩

/-- `result.head(n)` (line 155): the first `n` rows.  pandas `head` always
returns a DataFrame (never Python `None`). -/
def dfHead (n : Nat) (df : DF) : DF :=
  { df with rows := df.rows.take n }

/-- Models the source's `result is None` tests at lines 157 and 166.  At both
points `result` holds a DataFrame (produced by `head` and `filter_dataframe`
respectively), so the Python identity test with `None` is always False. -/
def py_is_none (_df : DF) : Bool := false

/-- `result[key] = value` on a dataframe: overwrite the column with a constant,
or append it. -/
def set_column (df : DF) (k : String) (v : Option String) : DF :=
  match df.cols.findIdx? (· = k) with
  | some i => { df with rows := df.rows.map (fun r => r.set i v) }
  | none => { cols := df.cols ++ [k], rows := df.rows.map (fun r => r ++ [v]) }

/-- The cell a `PVal` remote parameter writes when re-attached as a constant
column (line 161). -/
def cellOfPVal : PVal → Option String
  | .str s => some s
  | .null => none
  | .nat n => some (toString n)

/-! ## Spec-modelled sql_utils helpers

`filter_dataframe`, `sort_dataframe` and `project_dataframe` live in
utilities/sql_utils, a repository module that is not under src/. -/

/-- Lexicographic strict order on character lists. -/
def chars_lt : List Char → List Char → Bool
  | [], [] => false
  | [], _ :: _ => true
  | _ :: _, [] => false
  | a :: as, b :: bs =>
    if a.toNat < b.toNat then true
    else if b.toNat < a.toNat then false
    else chars_lt as bs

/-- Boolean strict order on cell strings (lexicographic). -/
def strLT (x y : String) : Bool := chars_lt x.toList y.toList

/-- Does one cell satisfy a comparison against a literal? -/
def cell_holds (op : String) (cell lit : Option String) : Bool :=
  if op = "=" then decide (cell = lit)
  else if op = "!=" then !(decide (cell = lit))
  else
    match cell, lit with
    | some x, some y =>
      if op = ">" then strLT y x
      else if op = "<" then strLT x y
      else if op = ">=" then !(strLT x y)
      else if op = "<=" then !(strLT y x)
      else true
    | _, _ => false

/-- Modelled from the spec: `filter_dataframe` (sql_utils, not under src/)
applies retained condition triples to the dataframe after the remote call
returns; rows must satisfy every triple, conditions naming an absent column are
kept vacuously. -/
def filter_dataframe (df : DF) (filters : List (String × String × Option String)) : DF :=
  { df with
    rows := df.rows.filter (fun r => filters.all (fun f =>
      match df.cols.findIdx? (· = f.2.1) with
      | none => true
      | some i => cell_holds f.1 (r.getD i none) f.2.2)) }

/-- Insert into a list sorted by `le`. -/
def insertLe {α : Type} (le : α → α → Bool) (x : α) : List α → List α
  | [] => [x]
  | y :: ys => if le x y then x :: y :: ys else y :: insertLe le x ys

/-- Insertion sort by `le`. -/
def sortLe {α : Type} (le : α → α → Bool) (l : List α) : List α :=
  l.foldr (insertLe le) []

/-- Order on optional cells: missing values first, then string order. -/
def cellLE (a b : Option String) : Bool :=
  match a, b with
  | none, _ => true
  | some _, none => false
  | some x, some y => !(strLT y x)

/-- Modelled from the spec: `sort_dataframe` (sql_utils, not under src/) applies
the requested `ORDER BY`: rows ordered on the named column, ascending or
descending; a missing sort column leaves the dataframe unchanged. -/
def sort_dataframe (df : DF) (ob : String × Bool) : DF :=
  match df.cols.findIdx? (· = ob.1) with
  | none => df
  | some i =>
    let le := fun (r1 r2 : List (Option String)) =>
      if ob.2 then cellLE (r1.getD i none) (r2.getD i none)
      else cellLE (r2.getD i none) (r1.getD i none)
    { df with rows := sortLe le df.rows }

/-- Does the target list contain a function call (or other non-identifier
expression)? -/
def hasFuncTarget (ts : List Target) : Bool :=
  ts.any (fun t =>
    match t with
    | .func _ _ => true
    | .other => true
    | _ => false)

/-- Modelled from the spec: `project_dataframe` (sql_utils, not under src/)
projects star and plain identifier targets directly and raises
`NotImplementedError` (modelled as `Except.error ()`) when a target needs a
capability the translator does not implement, such as a function call (spec
§4.3 steps 7-8). -/
def project_dataframe (df : DF) (targets : List Target) : Except Unit DF :=
  if hasFuncTarget targets then .error ()
  else
    let names := targets.foldl (fun acc t =>
      match t with
      | .star => acc ++ df.cols
      | .ident ps => acc ++ [lastPart ps]
      | _ => acc) []
    .ok ⟨names, df.rows.map (fun r => names.map (fun n =>
      match df.cols.findIdx? (· = n) with
      | some i => r.getD i none
      | none => none))⟩

/-! ## Errors and generated documentation text -/

/-- The Python exceptions `select` raises or handles, tagged by class. -/
inductive PyError where
  | notImplementedError (msg : String)
  | valueError (msg : String)
  | attributeError (msg : String)
  | validationError (msg : String)
  | exc (msg : String)
  | dbHandlerException (msg : String)
deriving DecidableEq, Repr

/-- Message of a Python exception (`str(e)`). -/
def PyError.msg : PyError → String
  | .notImplementedError m => m
  | .valueError m => m
  | .attributeError m => m
  | .validationError m => m
  | .exc m => m
  | .dbHandlerException m => m

/-- One line of the generated docstring for a declared parameter
(lines 123-129 and the identical loops in the handlers). -/
def fieldDocLine (kv : String × FieldMeta) : String :=
  "\n  * " ++ kv.1 ++ (if kv.2.required then "" else " (optional)") ++ ": "
    ++ kv.2.annot ++ "\n" ++ kv.2.descr

/-- The per-parameter reference lines for every declared parameter. -/
def fieldsDoc (pm : Meta) : String :=
  String.join (pm.fields.map fieldDocLine)

/-- The docstring block built inside each exception handler (lines 198-207,
214-224, 240-249): reference plus documentation link. -/
def docsText (pm : Meta) (func_docs : String) : String :=
  "Docstring:" ++ fieldsDoc pm ++ "\n\nFor more information check " ++ func_docs

/-- The missing-required-arguments message (lines 118-131): enumeration of the
missing names followed by the generated parameter reference. -/
def mandatory_text (pm : Meta) (func_docs : String) (missing : List String) : String :=
  "You must specify the following arguments in the WHERE statement: "
    ++ String.intercalate ", " missing ++ "\n"
    ++ "\nDocstring:" ++ fieldsDoc pm
    ++ "\n\nFor more information check " ++ func_docs

/-- Remediation text appended to a message containing `Table not found`
(line 233). -/
def table_not_found_text (func_docs : String) : String :=
  "\n\nCheck if the method exists here: " ++ func_docs
    ++ ".\n\n  -  If it doesn\x27t you may need to look for the parent module to check whether there\x27s a typo in the naming.\n- If it does you may need to install a new extension to the OpenBB Platform, and you can see what is available at https://my.openbb.co/app/platform/extensions."

/-- Remediation text appended to a message containing `Missing credential`
(line 236). -/
def missing_credential_text : String :=
  "\n\nGo to https://my.openbb.co/app/platform/api-keys to set this API key, for free."

/-- The `Unknown column` message (line 184). -/
def unknown_column_text (target : String) : String :=
  "Unknown column \x27" ++ target ++ "\x27 in \x27field list\x27"

/-! ## The preparation phase of `select` (lines 69-133)

Everything before the `try` block: condition interpretation, parameter
assembly, local-filter staging, and the required-argument gate. -/

/-- `_get_params_from_conditions` (lines 29-45): collect every `=` condition
into a key → literal dict. -/
def get_params_from_conditions (conds : List Cond) : List (String × Option String) :=
  conds.foldl (fun m c =>
    match c with
    | .cmp op f lit => if op = "=" then setk m f lit else m
    | .orOp => m) []

/-- Python truthiness of a literal fetched from `arg_params` (NULL and the empty
string are falsy). -/
def truthy : Option String → Bool
  | none => false
  | some s => s ≠ ""

/-- `strict_filter = arg_params.get('strict_filter', False)` (line 79), used as
a boolean. -/
def strict_filter (argParams : List (String × Option String)) : Bool :=
  match List.lookup "strict_filter" argParams with
  | none => false
  | some v => truthy v

/-- `interval = arg_params.get('interval', '1d')` fed to `pd.Timedelta`
(lines 92, 99-107), in days.  `pd.Timedelta` is an external library call,
modelled for day-granularity interval strings; any other value is modelled as
the one-day default. -/
def interval_days (argParams : List (String × Option String)) : Int :=
  match List.lookup "interval" argParams with
  | some (some s) => Int.ofNat ((parse_interval_chars s).getD 1)
  | _ => 1

/-- Mutable state of the condition loop (lines 72-115): remote-call `params`,
retained `filters`, staged `columns_to_add`, and the keys of
`mandatory_args_set` already flipped to True. -/
structure PrepState where
  params : List (String × PVal)
  filters : List (String × String × Option String)
  columns_to_add : List (String × Option String)
  args_set : List String
deriving DecidableEq, Repr

/-- The time-range pushdown dispatch (lines 91-108): translate one comparison
on a datetime response field into `start_`/`end_` calendar-day parameters.  In
the `=` branch the code shifts `date` down one interval, emits the lower bound,
then shifts the same variable back up before emitting the upper bound. -/
def timeParams (op f : String) (litStr : String)
    (argParams : List (String × Option String))
    (params : List (String × PVal)) : List (String × PVal) :=
  let date := parse_local_date litStr
  let k := interval_days argParams
  if op = ">" then setk params ("start_" ++ f) (.str (strftime_ymd date))
  else if op = "<" then setk params ("end_" ++ f) (.str (strftime_ymd date))
  else if op = ">=" then setk params ("start_" ++ f) (.str (strftime_ymd (date - k)))
  else if op = "<=" then setk params ("end_" ++ f) (.str (strftime_ymd (date + k)))
  else if op = "=" then
    let d1 := date - k
    let p1 := setk params ("start_" ++ f) (.str (strftime_ymd d1))
    setk p1 ("end_" ++ f) (.str (strftime_ymd (d1 + k)))
  else params

/-- One iteration of the condition loop (lines 81-115) for a comparison triple:
mark a mentioned mandatory argument, run the time-range or direct-pushdown
dispatch, and retain the condition in `filters` unconditionally. -/
def pureStep (pm rm : Meta) (argParams : List (String × Option String))
    (st : PrepState) : Cond → PrepState
  | .orOp => st
  | .cmp op f lit =>
    let seen := if f ∈ mandatory_fields pm then st.args_set ++ [f] else st.args_set
    let pc : List (String × PVal) × List (String × Option String) :=
      if ("start_" ++ f) ∈ metaKeys pm ∧ f ∈ response_columns rm ∧ lit ≠ none then
        if annotOf rm f = some "datetime" then
          (timeParams op f (lit.getD "") argParams st.params, st.columns_to_add)
        else (st.params, st.columns_to_add)
      else if f ∈ metaKeys pm ∨ strict_filter argParams = false then
        if op = "=" then
          (setk st.params f (match lit with | some s => .str s | none => .null),
           setk st.columns_to_add f lit)
        else (st.params, st.columns_to_add)
      else (st.params, st.columns_to_add)
    { params := pc.1
      filters := st.filters ++ [(op, f, lit)]
      columns_to_add := pc.2
      args_set := seen }

/-- One iteration of the condition loop including the disjunction rejection
(lines 82-83): the `or` sentinel raises `NotImplementedError` at once. -/
def condStep (pm rm : Meta) (argParams : List (String × Option String))
    (st : PrepState) (c : Cond) : Except PyError PrepState :=
  match c with
  | .orOp => .error (.notImplementedError "OR is not supported")
  | .cmp op f lit => .ok (pureStep pm rm argParams st (.cmp op f lit))

/-- The state the condition loop starts from: empty dicts, plus the fixed
provider parameter when one was bound at class-creation time (lines 72-78). -/
def init_state (provider : Option String) : PrepState :=
  ⟨match provider with
    | some p => [("provider", .str p)]
    | none => [], [], [], []⟩

/-- The preparation phase of `select` (lines 69-133): provider injection, the
condition loop, and the mandatory-argument gate, producing the state the remote
call is made from.  Every error it raises is raised before the `try` block. -/
def prepareCall (pm rm : Meta) (func_docs : String) (provider : Option String)
    (conds : List Cond) : Except PyError PrepState :=
  let argParams := get_params_from_conditions conds
  let st0 : PrepState := init_state provider
  match conds.foldlM (condStep pm rm argParams) st0 with
  | .error e => .error e
  | .ok st =>
    let missing := (mandatory_fields pm).filter (fun k => !(st.args_set.contains k))
    if missing = [] then
      .ok st
    else
      .error (.notImplementedError (mandatory_text pm func_docs missing))

/-! ## The remote call and post-processing (lines 135-192) -/

/-- Outcome of the projection stage: either a directly produced dataframe, or a
deferral to `_select_dataframe` (the DuckDB fallback, lines 47-59) on the given
query and remote-shaped result.  `_select_dataframe` rewrites the query text
against the in-memory dataframe and runs the embedded engine (external), so the
fallback is recorded as the pair it is handed. -/
inductive SelectOut where
  | direct (df : DF)
  | fallback (q : Query) (df : DF)
deriving DecidableEq, Repr

/-- Run a `SelectOut` against a concrete embedded-engine implementation: the
fallback's output is returned unmodified (lines 182, 191). -/
def run_out (engine : Query → DF → DF) : SelectOut → DF
  | .direct d => d
  | .fallback q d => engine q d

/-- Is a target acceptable to the validation loop against `columns`? -/
def TargetOk (columns : List String) : Target → Prop
  | .star => True
  | .ident ps => lowerLast ps ∈ columns
  | .func _ aps => lowerLast aps ∈ columns
  | .other => False

instance (columns : List String) (t : Target) : Decidable (TargetOk columns t) := by
  cases t <;> simp only [TargetOk] <;> infer_instance

/-- The target validation loop (lines 173-184): stars are skipped, identifier
and function-argument names are lowercased and checked against `columns`
(raising `Unknown column` at the first failure), and any other node shape
defers to DuckDB at once (`.ok true`). -/
def validate_targets (columns : List String) : List Target → Except PyError Bool
  | [] => .ok false
  | .star :: ts => validate_targets columns ts
  | .ident ps :: ts =>
    if lowerLast ps ∈ columns then validate_targets columns ts
    else .error (.valueError (unknown_column_text (lowerLast ps)))
  | .func _ aps :: ts =>
    if lowerLast aps ∈ columns then validate_targets columns ts
    else .error (.valueError (unknown_column_text (lowerLast aps)))
  | .other :: _ => .ok true

/-- The projection stage (lines 169-192): validate targets, then project
directly, deferring to the DuckDB fallback when validation meets a
non-identifier node or `project_dataframe` raises `NotImplementedError`. -/
def projectStage (q : Query) (result : DF) (columns : List String) :
    Except PyError SelectOut :=
  match validate_targets columns q.targets with
  | .error e => .error e
  | .ok true => .ok (.fallback q result)
  | .ok false =>
    match project_dataframe result q.targets with
    | .error _ => .ok (.fallback q result)
    | .ok d => .ok (.direct d)

/-- The body of the `try` block (lines 135-192): the limit parameter special
case, the remote call, index materialization, ordering, local re-limit, staged
constant columns, local filters, and target validation/projection.  `invoke`
models `obb_function(**params).to_df()`: it may raise (`.error`), return
Python `None` (`.ok none`), or return a dataframe. -/
def tryBody (pm rm : Meta) (func_docs : String)
    (invoke : List (String × PVal) → Except PyError (Option ObbDF))
    (q : Query) (prep : PrepState) : Except PyError SelectOut := do
  let params :=
    match q.limit with
    | some n => if "limit" ∈ metaKeys pm then setk prep.params "limit" (.nat n) else prep.params
    | none => prep.params
  let obb ← invoke params
  match obb with
  | none => throw (.exc ("For more information check " ++ func_docs ++ "."))
  | some obbDf =>
    let result := reset_index obbDf
    let result :=
      match q.order_by with
      | some ob => sort_dataframe result ob
      | none => result
    let result ←
      match q.limit with
      | some n =>
        let result := dfHead n result
        if py_is_none result then
          throw (.exc ("For more information check " ++ func_docs ++ "."))
        else pure result
      | none => pure result
    let result := prep.columns_to_add.foldl
      (fun r kv => set_column r kv.1 (cellOfPVal ((List.lookup kv.1 params).getD .null))) result
    let result := filter_dataframe result prep.filters
    if py_is_none result then
      throw (.exc ("For more information check " ++ func_docs ++ "."))
    else
      let columns := response_columns rm ++ (result.cols.filter (fun c => !((response_columns rm).contains c)))
      projectStage q result columns

/-- The exception handlers of `select` (lines 194-251): `AttributeError` and
`ValidationError` are re-raised with the generated parameter documentation
appended; any other exception first receives the `Table not found` or
`Missing credential` remediation text when its message contains those
substrings, and the documentation appendix otherwise. -/
def wrapTryError (pm : Meta) (func_docs : String) (e : PyError) : PyError :=
  match e with
  | .attributeError m => .exc (m ++ "\n\n" ++ docsText pm func_docs ++ ".")
  | .validationError m => .exc (m ++ "\n\n" ++ docsText pm func_docs ++ ".")
  | e' =>
    let m := e'.msg
    if strContains m "Table not found" then .exc (m ++ table_not_found_text func_docs)
    else if strContains m "Missing credential" then .exc (m ++ missing_credential_text)
    else .exc (m ++ "\n\n" ++ docsText pm func_docs ++ ".")

/-- `AnyTable.select` (lines 61-251), up to the deferred DuckDB execution:
prepare the call (errors there surface unwrapped, being raised before the
`try`), run the remote call and post-processing, and wrap any exception the
`try` block raises. -/
def select (pm rm : Meta) (func_docs : String) (provider : Option String)
    (invoke : List (String × PVal) → Except PyError (Option ObbDF))
    (q : Query) : Except PyError SelectOut :=
  match prepareCall pm rm func_docs provider q.conds with
  | .error e => .error e
  | .ok prep =>
    match tryBody pm rm func_docs invoke q prep with
    | .error e => .error (wrapTryError pm func_docs e)
    | .ok out => .ok out

/-- `AnyTable.select` composed with a concrete embedded engine standing in for
`_select_dataframe`'s DuckDB execution. -/
def select_run (pm rm : Meta) (func_docs : String) (provider : Option String)
    (invoke : List (String × PVal) → Except PyError (Option ObbDF))
    (engine : Query → DF → DF) (q : Query) : Except PyError DF :=
  (select pm rm func_docs provider invoke q).map (run_out engine)

/-! ## The backend adapter (`integration_datanode.IntegrationDataNode`) -/

/-- `RESPONSE_TYPE` of a connector result. -/
inductive RespType where
  | table
  | ok
  | err
deriving DecidableEq, Repr

/-- A connector dataframe cell: the numpy NaN sentinel, a generic missing
marker (`pd.NA`/`None`), or a value. -/
inductive PCell where
  | nan
  | null
  | val (s : String)
deriving DecidableEq, Repr

/-- The dataframe of a connector response: `(name, dtype)` column metadata and
rows of cells. -/
structure HandlerDF where
  cols : List (String × String)
  rows : List (List PCell)
deriving DecidableEq, Repr

/-- A connector `Response`: its type, error message, and dataframe. -/
structure HandlerResponse where
  rtype : RespType
  error_message : String
  data_frame : HandlerDF
deriving DecidableEq, Repr

/-- A raised Python exception as the adapter observes it: class name and
`str(e)`. -/
structure PyExc where
  clsName : String
  msg : String
deriving DecidableEq, Repr

/-- Is a character ASCII whitespace (as Python `str.strip` removes)? -/
def isSpaceChar (c : Char) : Bool :=
  c = ' ' || c = '\t' || c = '\n' || c = '\r'

/-- Python `str.strip()`: remove whitespace from both ends. -/
def py_strip (s : String) : String :=
  ⟨(((s.toList.dropWhile isSpaceChar).reverse).dropWhile isSpaceChar).reverse⟩

/-- The NaN normalization of lines 190-204: `df.replace(np.NaN, pd.NA)` then
`df.where(pd.notnull(df), None)` turn the floating NaN sentinel into the
generic missing marker. -/
def norm_cell : PCell → PCell
  | .nan => .null
  | c => c

/-- `has_table` (lines 50-51): always True. -/
def has_table (_tableName : String) : Bool := true

/-- `get_table_columns` (lines 53-54): always the empty list. -/
def get_table_columns (_tableName : String) : List String := []

/-- `IntegrationDataNode.query` (lines 169-214).  The dispatched connector call
(`_query`/`_native_query`, whose metrics wrapper does not alter the result) is
modelled by its outcome: a raised exception or a `Response`.  Returns the
`(data, columns_info)` pair. -/
def node_query (ds_type integration_name : String)
    (res : Except PyExc HandlerResponse) :
    Except PyError (List (List PCell) × List (String × String)) :=
  match res with
  | .error e =>
    let m := py_strip e.msg
    let m := if m = "" then e.clsName else m
    .error (.dbHandlerException ("[" ++ ds_type ++ "/" ++ integration_name ++ "]: " ++ m))
  | .ok r =>
    if r.rtype = .err then
      .error (.exc ("Error in " ++ integration_name ++ ": " ++ r.error_message))
    else if r.rtype = .ok then
      .ok ([], [])
    else
      let df : HandlerDF := { r.data_frame with rows := r.data_frame.rows.map (·.map norm_cell) }
      .ok (df.rows, df.cols)

/-! ## `create_table` insert preparation (lines 70-130) -/

/-- A numpy dtype as the column-type inference inspects it. -/
inductive NpDtype where
  | intD
  | floatD
  | objD
deriving DecidableEq, Repr

/-- The sqlalchemy storage types used for inferred columns. -/
inductive ColumnStorageType where
  | integer
  | float
  | text
deriving DecidableEq, Repr

/-- Column-type inference (lines 74-79): an integer numpy dtype maps to
Integer, any other numeric numpy dtype to Float, everything else to Text
(`none` models a non-numpy column type). -/
def infer_column_type (t : Option NpDtype) : ColumnStorageType :=
  match t with
  | some .intD => .integer
  | some .floatD => .float
  | _ => .text

/-- A Python value in a result-set record. -/
inductive PyVal where
  | none_
  | int_ (n : Int)
  | float_ (q : ℚ)
  | str_ (s : String)
deriving DecidableEq, Repr

/-- Parse a signed integer literal string (Python `int(str)`). -/
def parse_int_string (s : String) : Option Int :=
  match s.toList with
  | '-' :: cs => (parseNatChars cs).map (fun n => -(Int.ofNat n))
  | '+' :: cs => (parseNatChars cs).map Int.ofNat
  | cs => (parseNatChars cs).map Int.ofNat

/-- Split a character list at the first dot, if any. -/
def splitDot (cs : List Char) : List Char × Option (List Char) :=
  match cs with
  | [] => ([], none)
  | c :: rest =>
    if c = '.' then ([], some rest)
    else
      let r := splitDot rest
      (c :: r.1, r.2)

/-- Parse an unsigned decimal literal string into a rational. -/
def parseDecChars (cs : List Char) : Option ℚ :=
  match splitDot cs with
  | (intPart, none) => (parseNatChars intPart).map (fun n => (n : ℚ))
  | (intPart, some fracPart) =>
    match parseNatChars intPart, parseNatChars fracPart with
    | some n, some f => some ((n : ℚ) + (f : ℚ) / ((10 : ℚ) ^ fracPart.length))
    | _, _ => none

/-- Parse a signed decimal literal string (Python `float(str)`, modelled for
plain decimal literals). -/
def parse_float_string (s : String) : Option ℚ :=
  match s.toList with
  | '-' :: cs => (parseDecChars cs).map (fun q => -q)
  | '+' :: cs => parseDecChars cs
  | cs => parseDecChars cs

/-- Python `int(value)` on a non-None value: identity on ints, truncation
toward zero on floats, integer-literal parsing on strings (raising, i.e.
`none`, otherwise). -/
def py_int : PyVal → Option PyVal
  | .int_ n => some (.int_ n)
  | .float_ q => some (.int_ (q.num / (q.den : Int)))
  | .str_ s => (parse_int_string s).map .int_
  | .none_ => none

/-- Python `float(value)` on a non-None value. -/
def py_float : PyVal → Option PyVal
  | .int_ n => some (.float_ (n : ℚ))
  | .float_ q => some (.float_ q)
  | .str_ s => (parse_float_string s).map .float_
  | .none_ => none

/-- Rendering used by Python `str(value)`; numeric renderings are modelled by
the canonical `Int`/`Rat` representations. -/
def py_render : PyVal → String
  | .int_ n => toString n
  | .float_ q => toString q
  | .str_ s => s
  | .none_ => "None"

/-- Python `str(value)`: total. -/
def py_str (v : PyVal) : PyVal := .str_ (py_render v)

/-- The coercion attempt of lines 119-126: the `python_type(value)` call for
the column's inferred storage type (Integer → int, Float → float,
otherwise str). -/
def coerce_attempt (t : ColumnStorageType) (v : PyVal) : Option PyVal :=
  match t with
  | .integer => py_int v
  | .float => py_float v
  | .text => some (py_str v)

/-- One value of the insert-preparation pass (lines 119-129): None values pass
untouched, a successful coercion replaces the value, and a raised coercion
error is swallowed, keeping the raw value. -/
def coerce_value (t : ColumnStorageType) (v : PyVal) : PyVal :=
  match v with
  | .none_ => .none_
  | w =>
    match coerce_attempt t w with
    | some w' => w'
    | none => w

/-- One formatted row of `create_table`'s insert preparation (lines 113-130),
with the cached per-column storage types. -/
def format_record (ts : List ColumnStorageType) (vs : List PyVal) : List PyVal :=
  List.zipWith coerce_value ts vs

/-- The full insert-preparation pass (`formatted_data`, lines 111-130). -/
def format_records (ts : List ColumnStorageType) (recs : List (List PyVal)) :
    List (List PyVal) :=
  recs.map (format_record ts)

/-! ## Helper lemmas -/

theorem lookup_setk_self {β : Type} (m : List (String × β)) (k : String) (v : β) :
    List.lookup k (setk m k v) = some v := by
  induction m with
  | nil => simp [setk, List.lookup]
  | cons kv rest ih =>
    obtain ⟨k1, v1⟩ := kv
    by_cases h : k1 = k
    · subst h; simp [setk, List.lookup]
    · have hb : (k == k1) = false := by
        simp only [beq_eq_false_iff_ne, ne_eq]
        exact fun he => h he.symm
      simp [setk, h, List.lookup, hb, ih]

theorem lookup_setk_ne {β : Type} (m : List (String × β)) (k k' : String) (v : β)
    (h : k' ≠ k) : List.lookup k' (setk m k v) = List.lookup k' m := by
  induction m with
  | nil =>
    have hb : (k' == k) = false := by simp [beq_eq_false_iff_ne, h]
    simp [setk, List.lookup, hb]
  | cons kv rest ih =>
    obtain ⟨k1, v1⟩ := kv
    by_cases hk : k1 = k
    · subst hk
      have hb : (k' == k1) = false := by simp [beq_eq_false_iff_ne]; exact h
      simp [setk, List.lookup, hb]
    · simp only [setk, if_neg hk]
      by_cases hk' : k1 = k'
      · subst hk'; simp [List.lookup]
      · have hb : (k' == k1) = false := by
          simp only [beq_eq_false_iff_ne, ne_eq]
          exact fun he => hk' he.symm
        simp [List.lookup, hb, ih]

theorem foldlM_condStep_of_or {pm rm : Meta} {ap : List (String × Option String)}
    (conds : List Cond) (st0 : PrepState) (h : Cond.orOp ∈ conds) :
    conds.foldlM (condStep pm rm ap) st0 =
      .error (.notImplementedError "OR is not supported") := by
  induction conds generalizing st0 with
  | nil => cases h
  | cons c cs ih =>
    cases c with
    | orOp =>
      simp only [List.foldlM_cons, condStep]
      rfl
    | cmp op f lit =>
      have hcs : Cond.orOp ∈ cs := by
        rcases List.mem_cons.mp h with h' | h'
        · exact absurd h' (by simp)
        · exact h'
      simp only [List.foldlM_cons, condStep]
      exact ih _ hcs

theorem foldlM_condStep_of_no_or {pm rm : Meta} {ap : List (String × Option String)}
    (conds : List Cond) (st0 : PrepState) (h : Cond.orOp ∉ conds) :
    conds.foldlM (condStep pm rm ap) st0 = .ok (conds.foldl (pureStep pm rm ap) st0) := by
  induction conds generalizing st0 with
  | nil => rfl
  | cons c cs ih =>
    cases c with
    | orOp => exact absurd (List.mem_cons_self _ _) h
    | cmp op f lit =>
      have hcs : Cond.orOp ∉ cs := fun hm => h (List.mem_cons_of_mem _ hm)
      simp only [List.foldlM_cons, condStep, List.foldl_cons]
      exact ih _ hcs

theorem foldl_pureStep_filters (pm rm : Meta) (ap : List (String × Option String))
    (conds : List Cond) (st0 : PrepState) :
    (conds.foldl (pureStep pm rm ap) st0).filters =
      st0.filters ++ conds.filterMap condTriple := by
  induction conds generalizing st0 with
  | nil => simp
  | cons c cs ih =>
    cases c with
    | orOp =>
      rw [List.foldl_cons]
      rw [show pureStep pm rm ap st0 .orOp = st0 from rfl]
      simp [ih, condTriple]
    | cmp op f lit =>
      rw [List.foldl_cons, ih]
      have hf : (pureStep pm rm ap st0 (.cmp op f lit)).filters
          = st0.filters ++ [(op, f, lit)] := rfl
      rw [hf]
      simp [condTriple]

theorem foldl_pureStep_args (pm rm : Meta) (ap : List (String × Option String))
    (conds : List Cond) (st0 : PrepState) :
    (conds.foldl (pureStep pm rm ap) st0).args_set =
      st0.args_set ++
        (conds.filterMap leftField).filter (fun f => decide (f ∈ mandatory_fields pm)) := by
  induction conds generalizing st0 with
  | nil => simp
  | cons c cs ih =>
    cases c with
    | orOp =>
      rw [List.foldl_cons]
      rw [show pureStep pm rm ap st0 .orOp = st0 from rfl]
      simp [ih, leftField]
    | cmp op f lit =>
      rw [List.foldl_cons, ih]
      have ha : (pureStep pm rm ap st0 (.cmp op f lit)).args_set
          = (if f ∈ mandatory_fields pm then st0.args_set ++ [f] else st0.args_set) := rfl
      rw [ha]
      by_cases hf : f ∈ mandatory_fields pm
      · simp [hf, leftField]
      · simp [hf, leftField]

theorem prepareCall_of_or (pm rm : Meta) (func_docs : String)
    (provider : Option String) (conds : List Cond) (h : Cond.orOp ∈ conds) :
    prepareCall pm rm func_docs provider conds =
      .error (.notImplementedError "OR is not supported") := by
  simp only [prepareCall]
  rw [foldlM_condStep_of_or _ _ h]

theorem prepareCall_of_no_or (pm rm : Meta) (func_docs : String)
    (provider : Option String) (conds : List Cond) (h : Cond.orOp ∉ conds) :
    prepareCall pm rm func_docs provider conds =
      (let st := conds.foldl (pureStep pm rm (get_params_from_conditions conds))
        (init_state provider)
       let missing := (mandatory_fields pm).filter (fun k => !(st.args_set.contains k))
       if missing = [] then .ok st
       else .error (.notImplementedError (mandatory_text pm func_docs missing))) := by
  simp only [prepareCall]
  rw [foldlM_condStep_of_no_or _ _ h]

/-! ## Concrete fixtures

A small translator in the shape of the spec's E2E scenario B: required
`symbol`, optional `start_date`/`end_date` window parameters, and a response
with a datetime `date` field and a `close` field. -/

/-- Parameter schema: `symbol` required, `start_date`/`end_date` optional. -/
def pmB : Meta := ⟨[("symbol", ⟨true, "str", "Symbol to get data for."⟩),
  ("start_date", ⟨false, "date", "Start date."⟩),
  ("end_date", ⟨false, "date", "End date."⟩)]⟩

/-- Response schema: datetime `date` plus `close`. -/
def rmB : Meta := ⟨[("date", ⟨true, "datetime", "The date of the data."⟩),
  ("close", ⟨true, "float", "Close price."⟩)]⟩

/-- WHERE `date = '2023-05-01' AND symbol = 'ABC'`, selecting `close`. -/
def qB : Query := ⟨[.ident ["close"]],
  [.cmp "=" "date" (some "2023-05-01"), .cmp "=" "symbol" (some "ABC")], none, none⟩

/-- The preparation state of `qB` against `pmB`/`rmB` (computed). -/
def prepB : PrepState :=
  ⟨[("start_date", .str "2023-04-30"), ("end_date", .str "2023-05-01"),
    ("symbol", .str "ABC")],
   [("=", "date", some "2023-05-01"), ("=", "symbol", some "ABC")],
   [("symbol", some "ABC")],
   ["symbol"]⟩

/-- A remote function returning two price rows on a datetime index. -/
def invB : List (String × PVal) → Except PyError (Option ObbDF) :=
  fun _ => .ok (some ⟨some "date", [some "2023-04-30", some "2023-05-01"],
    ["close"], [[some "10.0"], [some "11.0"]]⟩)

/-- A remote function returning one row with symbol and close columns. -/
def invRow : List (String × PVal) → Except PyError (Option ObbDF) :=
  fun _ => .ok (some ⟨none, [], ["symbol", "close"], [[some "B", some "1"]]⟩)

/-- A remote function returning an empty result set. -/
def invEmpty : List (String × PVal) → Except PyError (Option ObbDF) :=
  fun _ => .ok (some ⟨none, [], ["close"], []⟩)

/-! ## C7 — disjunction rejection -/

/-- Claim C7: for every select call whose extracted condition sequence contains
the `or` sentinel triple, `select` raises the `OR is not supported` error
(regardless of the remote function, which is therefore never invoked). -/
theorem c7_or_rejected (pm rm : Meta) (func_docs : String) (provider : Option String)
    (invoke : List (String × PVal) → Except PyError (Option ObbDF))
    (q : Query) (h : Cond.orOp ∈ q.conds) :
    select pm rm func_docs provider invoke q =
      .error (.notImplementedError "OR is not supported") := by
  unfold select
  rw [prepareCall_of_or _ _ _ _ _ h]

/-- Claim C7 witness: a query with `symbol = 'ABC' OR ...` is rejected with the
`OR is not supported` error, for a remote function that would otherwise return
data. -/
theorem c7_witness :
    select pmB rmB "https://docs" none invRow
        ⟨[.star], [.cmp "=" "symbol" (some "ABC"), .orOp], none, none⟩ =
      .error (.notImplementedError "OR is not supported") :=
  c7_or_rejected pmB rmB "https://docs" none invRow _ (by decide)

/-! ## C2 — which conditions become local filters -/

/-- Claim C2 counterexample: in scenario B the `date = '2023-05-01'` condition
is consumed by time-range pushdown (it emits the `start_date`/`end_date`
window), yet it still appears among the retained local filters, so the local
filters are not "exactly those conditions not consumed" and the temporal
condition is re-applied locally as an exact match. -/
theorem c2_counterexample :
    prepareCall pmB rmB "https://docs" none qB.conds = .ok prepB ∧
    List.lookup "start_date" prepB.params = some (.str "2023-04-30") ∧
    ("=", "date", some "2023-05-01") ∈ prepB.filters := by
  refine ⟨by rfl, by decide, by decide⟩

/-- Claim C2 as amended: the retained local filters are all of the extracted
comparison conditions, in order — including those consumed by time-range or
direct parameter pushdown. -/
theorem c2_filters_retain_all (pm rm : Meta) (func_docs : String)
    (provider : Option String) (conds : List Cond) (st : PrepState)
    (h : prepareCall pm rm func_docs provider conds = .ok st) :
    st.filters = conds.filterMap condTriple := by
  by_cases hor : Cond.orOp ∈ conds
  · rw [prepareCall_of_or _ _ _ _ _ hor] at h
    simp at h
  · rw [prepareCall_of_no_or _ _ _ _ _ hor] at h
    simp only [] at h
    split at h
    · cases h
      rw [foldl_pureStep_filters]
      rfl
    · simp at h

/-- Claim C2 amended witness: the scenario-B preparation retains both the
consumed temporal condition and the consumed symbol condition as local
filters. -/
theorem c2_witness :
    prepB.filters = qB.conds.filterMap condTriple :=
  c2_filters_retain_all pmB rmB "https://docs" none qB.conds prepB (by rfl)

/-! ## C1 — time-range pushdown operator mapping -/

/-- Claim C1 counterexample: scenario B (`date = '2023-05-01'`, default one-day
interval).  The claim says `=` emits both bounds shifted one interval in each
direction, i.e. `end_date = '2023-05-02'`; the code instead adds the interval
back to the already-shifted date, so the translator emits
`end_date = '2023-05-01'`. -/
theorem c1_counterexample :
    prepareCall pmB rmB "https://docs" none qB.conds = .ok prepB ∧
    List.lookup "end_date" prepB.params = some (.str "2023-05-01") ∧
    strftime_ymd (parse_local_date "2023-05-01" + 1) = "2023-05-02" ∧
    PVal.str "2023-05-01" ≠ PVal.str "2023-05-02" :=
  ⟨by rfl, by decide, by decide, by decide⟩

/-- Claim C1 as amended: for a condition on a datetime response field with a
declared `start_<field>` parameter and a non-null literal, the loop body emits
(`interval` defaulting to one day): `>` → `start_<field>` = the literal date;
`<` → `end_<field>` = the literal date; `>=` → `start_<field>` = the literal
date minus one interval; `<=` → `end_<field>` = the literal date plus one
interval; `=` → `start_<field>` = the literal date minus one interval and
`end_<field>` = the literal date itself (the second shift reuses the
already-shifted date, so the upper bound is not `literal + interval`). -/
theorem c1_time_pushdown_amended (pm rm : Meta) (ap : List (String × Option String))
    (st : PrepState) (op f s : String)
    (hs : ("start_" ++ f) ∈ metaKeys pm) (hr : f ∈ response_columns rm)
    (ha : annotOf rm f = some "datetime") :
    (op = ">" → (pureStep pm rm ap st (.cmp op f (some s))).params =
      setk st.params ("start_" ++ f) (.str (strftime_ymd (parse_local_date s)))) ∧
    (op = "<" → (pureStep pm rm ap st (.cmp op f (some s))).params =
      setk st.params ("end_" ++ f) (.str (strftime_ymd (parse_local_date s)))) ∧
    (op = ">=" → (pureStep pm rm ap st (.cmp op f (some s))).params =
      setk st.params ("start_" ++ f)
        (.str (strftime_ymd (parse_local_date s - interval_days ap)))) ∧
    (op = "<=" → (pureStep pm rm ap st (.cmp op f (some s))).params =
      setk st.params ("end_" ++ f)
        (.str (strftime_ymd (parse_local_date s + interval_days ap)))) ∧
    (op = "=" → (pureStep pm rm ap st (.cmp op f (some s))).params =
      setk (setk st.params ("start_" ++ f)
          (.str (strftime_ymd (parse_local_date s - interval_days ap))))
        ("end_" ++ f) (.str (strftime_ymd (parse_local_date s)))) := by
  have hparams : (pureStep pm rm ap st (.cmp op f (some s))).params
      = timeParams op f s ap st.params := by
    simp only [pureStep]
    rw [if_pos ⟨hs, hr, by simp⟩, if_pos ha]
    rfl
  refine ⟨?_, ?_, ?_, ?_, ?_⟩ <;> intro hop <;> subst hop <;>
    rw [hparams] <;> simp [timeParams, Int.sub_add_cancel]

/-- Claim C1 amended witness: `date = '2023-05-01'` with the default interval
emits `start_date = 2023-04-30` and `end_date = 2023-05-01`. -/
theorem c1_witness :
    (pureStep pmB rmB [] (init_state none) (.cmp "=" "date" (some "2023-05-01"))).params =
      setk (setk (init_state none).params ("start_" ++ "date")
          (.str (strftime_ymd (parse_local_date "2023-05-01" - interval_days []))))
        ("end_" ++ "date") (.str (strftime_ymd (parse_local_date "2023-05-01"))) :=
  (c1_time_pushdown_amended pmB rmB [] (init_state none) "=" "date" "2023-05-01"
    (by decide) (by decide) (by decide)).2.2.2.2 rfl

/-! ## C6 — the required-parameter gate -/

/-- Required parameters that no extracted condition mentions as its left
operand. -/
def missing_required (pm : Meta) (conds : List Cond) : List String :=
  (mandatory_fields pm).filter (fun k => !((conds.filterMap leftField).contains k))

/-- WHERE `symbol > 'A'`: a non-equality condition on the required parameter. -/
def qGt : Query := ⟨[.star], [.cmp ">" "symbol" (some "A")], none, none⟩

/-- A remote function that raises a pydantic `ValidationError`. -/
def invRaise : List (String × PVal) → Except PyError (Option ObbDF) :=
  fun _ => .error (.validationError "boom")

/-- The preparation state of `qGt` against `pmB`/`rmB` (computed): the gate is
satisfied, yet no `symbol` parameter was assembled. -/
def prepGt : PrepState := ⟨[], [(">", "symbol", some "A")], [], ["symbol"]⟩

/-- Claim C6 counterexample: with required parameter `symbol` and WHERE clause
`symbol > 'A'` — no equality condition supplying `symbol` — `select` does not
fail before the remote call: the gate is satisfied by the mere mention of
`symbol`, the remote function is invoked (its outcome decides the result), and
no `symbol` parameter was assembled. -/
theorem c6_counterexample :
    select pmB rmB "https://docs" none invRow qGt =
      .ok (.direct ⟨["symbol", "close"], [[some "B", some "1"]]⟩) ∧
    select pmB rmB "https://docs" none invRaise qGt =
      .error (.exc ("boom\n\n" ++ docsText pmB "https://docs" ++ ".")) ∧
    List.lookup "symbol" prepGt.params = none ∧
    prepareCall pmB rmB "https://docs" none qGt.conds = .ok prepGt :=
  ⟨by rfl, by rfl, by decide, by rfl⟩

/-- Claim C6 as amended: the gate checks only that each required parameter
appears as the left operand of some condition (of any operator); when a
required parameter is mentioned by no condition at all, `select` fails before
invoking the remote call, with the error enumerating every missing required
name followed by the generated per-parameter reference. -/
theorem c6_gate_amended (pm rm : Meta) (func_docs : String) (provider : Option String)
    (invoke : List (String × PVal) → Except PyError (Option ObbDF)) (q : Query)
    (hor : Cond.orOp ∉ q.conds) (hmiss : missing_required pm q.conds ≠ []) :
    select pm rm func_docs provider invoke q =
      .error (.notImplementedError
        (mandatory_text pm func_docs (missing_required pm q.conds))) := by
  have hargs := foldl_pureStep_args pm rm (get_params_from_conditions q.conds)
    q.conds (init_state provider)
  have hmiss_eq : (mandatory_fields pm).filter (fun k =>
      !(((q.conds.foldl (pureStep pm rm (get_params_from_conditions q.conds))
          (init_state provider)).args_set).contains k)) = missing_required pm q.conds := by
    rw [hargs]
    apply List.filter_congr
    intro k hk
    congr 1
    show ((init_state provider).args_set ++ _).contains k = _
    rw [show (init_state provider).args_set = [] from rfl, List.nil_append]
    simp only [List.contains, List.elem_eq_mem, decide_eq_decide, List.mem_filter]
    constructor
    · exact fun hx => hx.1
    · exact fun hx => ⟨hx, by simpa using hk⟩
  unfold select
  rw [prepareCall_of_no_or _ _ _ _ _ hor]
  simp only []
  rw [hmiss_eq, if_neg hmiss]

/-- Claim C6 amended witness: a query with no WHERE clause at all misses the
required `symbol` and is rejected before the remote call with the enumerating
message. -/
theorem c6_witness :
    select pmB rmB "https://docs" none invRow ⟨[.star], [], none, none⟩ =
      .error (.notImplementedError
        (mandatory_text pmB "https://docs" (missing_required pmB []))) :=
  c6_gate_amended pmB rmB "https://docs" none invRow ⟨[.star], [], none, none⟩
    (by decide) (by decide)

/-! ## C3 — exception wrapping policy -/

/-- Claim C3 counterexample: the disjunction rejection is raised before the
`try` block, so it surfaces with the bare message `OR is not supported`, which
does not carry the generated parameter documentation (the `Docstring:`
reference that every wrapped message and the gate message embed). -/
theorem c3_counterexample :
    select pmB rmB "https://docs" none invRow ⟨[.star], [.orOp], none, none⟩ =
      .error (.notImplementedError "OR is not supported") ∧
    strContains "OR is not supported" "Docstring:" = false ∧
    strContains (mandatory_text pmB "https://docs" ["symbol"]) "Docstring:" = true :=
  ⟨by rfl, by decide, by decide⟩

/-- Claim C3 as amended: only exceptions raised inside the `try` block (the
remote call and post-processing) are re-wrapped — `AttributeError` and
`ValidationError` messages get the parameter documentation appended, a message
containing `Table not found` gets the installation/typo remediation text
instead (without the parameter reference), a message containing
`Missing credential` gets the credential remediation text instead, and every
other message gets the documentation appendix; errors raised during
preparation (the disjunction rejection and the required-parameter gate)
surface unwrapped. -/
theorem c3_error_wrapping_amended (pm : Meta) (func_docs : String) :
    (∀ m, wrapTryError pm func_docs (.attributeError m) =
      .exc (m ++ "\n\n" ++ docsText pm func_docs ++ ".")) ∧
    (∀ m, wrapTryError pm func_docs (.validationError m) =
      .exc (m ++ "\n\n" ++ docsText pm func_docs ++ ".")) ∧
    (∀ m, strContains m "Table not found" = true →
      wrapTryError pm func_docs (.exc m) = .exc (m ++ table_not_found_text func_docs)) ∧
    (∀ m, strContains m "Table not found" = false →
      strContains m "Missing credential" = true →
      wrapTryError pm func_docs (.exc m) = .exc (m ++ missing_credential_text)) ∧
    (∀ m, strContains m "Table not found" = false →
      strContains m "Missing credential" = false →
      wrapTryError pm func_docs (.exc m) =
        .exc (m ++ "\n\n" ++ docsText pm func_docs ++ ".")) ∧
    (∀ (rm : Meta) (provider : Option String) invoke (q : Query) (e : PyError),
      prepareCall pm rm func_docs provider q.conds = .error e →
      select pm rm func_docs provider invoke q = .error e) := by
  refine ⟨fun m => rfl, fun m => rfl, ?_, ?_, ?_, ?_⟩
  · intro m h
    simp [wrapTryError, PyError.msg, h]
  · intro m h1 h2
    simp [wrapTryError, PyError.msg, h1, h2]
  · intro m h1 h2
    simp [wrapTryError, PyError.msg, h1, h2]
  · intro rm provider invoke q e h
    unfold select
    rw [h]

/-- Claim C3 amended witness: a remote `Missing credential` failure gets only
the credential remediation text appended. -/
theorem c3_witness :
    wrapTryError pmB "https://docs" (.exc "Missing credential for fmp") =
      .exc ("Missing credential for fmp" ++ missing_credential_text) :=
  (c3_error_wrapping_amended pmB "https://docs").2.2.2.1 "Missing credential for fmp"
    (by decide) (by decide)

/-! ## C4 — projection validation and the DuckDB fallback -/

/-- `AVG(bogus)` over a column that is neither declared nor present. -/
def qBad : Query := ⟨[.func "avg" ["bogus"]], [.cmp "=" "symbol" (some "ABC")], none, none⟩

/-- Claim C4 counterexample: a function-call target over an unknown column does
not trigger the DuckDB fallback — the validation loop checks the function's
argument name against the columns and raises the `Unknown column` error (here
surfaced with the documentation appendix by the generic handler). -/
theorem c4_counterexample :
    select pmB rmB "https://docs" none invRow qBad =
      .error (.exc (unknown_column_text "bogus" ++ "\n\n"
        ++ docsText pmB "https://docs" ++ ".")) ∧
    (select pmB rmB "https://docs" none invRow qBad).toOption = none :=
  ⟨by rfl, by rfl⟩

theorem validate_targets_all_ok (columns : List String) (ts : List Target)
    (h : ∀ t ∈ ts, TargetOk columns t) : validate_targets columns ts = .ok false := by
  induction ts with
  | nil => rfl
  | cons t ts ih =>
    have hrest : ∀ t' ∈ ts, TargetOk columns t' :=
      fun t' h' => h t' (List.mem_cons_of_mem _ h')
    cases t with
    | star => exact ih hrest
    | ident ps =>
      have ht : lowerLast ps ∈ columns := h _ (List.mem_cons_self _ _)
      simp only [validate_targets, if_pos ht]
      exact ih hrest
    | func nm aps =>
      have ht : lowerLast aps ∈ columns := h _ (List.mem_cons_self _ _)
      simp only [validate_targets, if_pos ht]
      exact ih hrest
    | other =>
      have ht := h _ (List.mem_cons_self Target.other ts)
      exact absurd ht (by simp [TargetOk])

theorem validate_targets_ident_err (columns : List String) (ps : List String)
    (post pre : List Target) (hpre : ∀ t ∈ pre, TargetOk columns t)
    (hid : lowerLast ps ∉ columns) :
    validate_targets columns (pre ++ Target.ident ps :: post) =
      .error (.valueError (unknown_column_text (lowerLast ps))) := by
  induction pre with
  | nil =>
    simp only [List.nil_append, validate_targets, if_neg hid]
  | cons t pre ih =>
    have hrest : ∀ t' ∈ pre, TargetOk columns t' :=
      fun t' h' => hpre t' (List.mem_cons_of_mem _ h')
    cases t with
    | star => exact ih hrest
    | ident ps' =>
      have ht : lowerLast ps' ∈ columns := hpre _ (List.mem_cons_self _ _)
      rw [List.cons_append]
      simp only [validate_targets, if_pos ht]
      exact ih hrest
    | func nm aps =>
      have ht : lowerLast aps ∈ columns := hpre _ (List.mem_cons_self _ _)
      rw [List.cons_append]
      simp only [validate_targets, if_pos ht]
      exact ih hrest
    | other =>
      have ht := hpre _ (List.mem_cons_self Target.other pre)
      exact absurd ht (by simp [TargetOk])

/-- Claim C4 as amended: when every target validates (each identifier or
function-argument name, lowercased, is among the columns), a target list
containing a function call defers to the DuckDB fallback exactly once, and the
fallback's output is returned unmodified; a bare identifier target that fails
validation (all targets before it validating) raises the `Unknown column`
error without invoking the fallback — and so does a function call whose
argument fails validation, contrary to the claim. -/
theorem c4_projection_amended (columns : List String) (q : Query) (df : DF) :
    ((∀ t ∈ q.targets, TargetOk columns t) →
      (∃ nm aps, Target.func nm aps ∈ q.targets) →
      projectStage q df columns = .ok (.fallback q df) ∧
        ∀ engine, run_out engine (SelectOut.fallback q df) = engine q df) ∧
    (∀ pre ps post, q.targets = pre ++ Target.ident ps :: post →
      (∀ t ∈ pre, TargetOk columns t) → lowerLast ps ∉ columns →
      projectStage q df columns =
        .error (.valueError (unknown_column_text (lowerLast ps)))) := by
  constructor
  · intro hvalid hex
    obtain ⟨nm, aps, hmem⟩ := hex
    have hval := validate_targets_all_ok columns q.targets hvalid
    have hfunc : hasFuncTarget q.targets = true := by
      simp only [hasFuncTarget, List.any_eq_true]
      exact ⟨_, hmem, rfl⟩
    refine ⟨?_, fun engine => rfl⟩
    simp [projectStage, hval, project_dataframe, hfunc]
  · intro pre ps post htargets hpre hid
    have hval := validate_targets_ident_err columns ps post pre hpre hid
    simp [projectStage, htargets, hval]

/-- A one-row remote-shaped dataframe. -/
def dfRow : DF := ⟨["symbol", "close"], [[some "B", some "1"]]⟩

/-- `AVG(close)` over a known column. -/
def qAvg : Query := ⟨[.func "avg" ["close"]], [], none, none⟩

/-- `SELECT bogus` with a bare unknown identifier. -/
def qIdentBad : Query := ⟨[.ident ["bogus"]], [], none, none⟩

/-- Claim C4 amended witness: `AVG(close)` against columns containing `close`
defers to the fallback and returns its output verbatim; the bare identifier
`bogus` raises the `Unknown column` error. -/
theorem c4_witness :
    projectStage qAvg dfRow ["symbol", "close"] = .ok (.fallback qAvg dfRow) ∧
    run_out (fun _ df => df) (SelectOut.fallback qAvg dfRow) = dfRow ∧
    projectStage qIdentBad dfRow ["symbol", "close"] =
      .error (.valueError (unknown_column_text "bogus")) := by
  refine ⟨((c4_projection_amended ["symbol", "close"] qAvg dfRow).1 (by decide)
      ⟨"avg", ["close"], by decide⟩).1,
    ((c4_projection_amended ["symbol", "close"] qAvg dfRow).1 (by decide)
      ⟨"avg", ["close"], by decide⟩).2 (fun _ df => df), ?_⟩
  have h := (c4_projection_amended ["symbol", "close"] qIdentBad dfRow).2
    [] ["bogus"] [] rfl (by decide) (by decide)
  simpa using h

/-! ## C5 — the dead empty-after-limit guard -/

/-- An empty remote result with `LIMIT 5`. -/
def qLim : Query := ⟨[.star], [.cmp "=" "symbol" (some "ABC")], none, some 5⟩

/-- Claim C5 evaluation: the remote call returns no rows and the local
re-limit leaves no data, yet `select` returns the empty result instead of
failing — the guard at line 157 compares the dataframe `head` returned against
Python `None`, which `head` never yields, so the diagnostic never fires. -/
theorem c5_code_evaluation :
    select pmB rmB "https://docs" none invEmpty qLim =
      .ok (.direct ⟨["close", "symbol"], []⟩) := by
  rfl

/-! ## C8 — adapter query dispatch -/

/-- Claim C8: dispatching through the adapter's `query`, a raised connector
exception becomes a `DBHandlerException` with message
`[backendKind/backendName]: <message>` (the exception's class name standing in
when the stripped message is empty); a `kind=ERROR` result raises a generic
error carrying the connector's message; a `kind=OK` result returns empty rows
and columns. -/
theorem c8_adapter_query (ds_type integration_name : String) :
    (∀ e : PyExc, node_query ds_type integration_name (.error e) =
      .error (.dbHandlerException ("[" ++ ds_type ++ "/" ++ integration_name ++ "]: "
        ++ (if py_strip e.msg = "" then e.clsName else py_strip e.msg)))) ∧
    (∀ r : HandlerResponse, r.rtype = .err →
      node_query ds_type integration_name (.ok r) =
        .error (.exc ("Error in " ++ integration_name ++ ": " ++ r.error_message))) ∧
    (∀ r : HandlerResponse, r.rtype = .ok →
      node_query ds_type integration_name (.ok r) = .ok ([], [])) := by
  refine ⟨fun e => rfl, ?_, ?_⟩
  · intro r h
    simp [node_query, h]
  · intro r h
    simp [node_query, h]

/-- Claim C8 witness: a connector exception with a whitespace-only message is
wrapped with the exception's class name; an error result and an OK result take
their branches. -/
theorem c8_witness :
    node_query "postgres" "db1" (.error ⟨"OperationalError", "  "⟩) =
      .error (.dbHandlerException "[postgres/db1]: OperationalError") ∧
    node_query "postgres" "db1" (.ok ⟨.err, "syntax error", ⟨[], []⟩⟩) =
      .error (.exc "Error in db1: syntax error") ∧
    node_query "postgres" "db1" (.ok ⟨.ok, "", ⟨[], []⟩⟩) = .ok ([], []) :=
  ⟨by rw [(c8_adapter_query "postgres" "db1").1 ⟨"OperationalError", "  "⟩]; rfl,
   (c8_adapter_query "postgres" "db1").2.1 ⟨.err, "syntax error", ⟨[], []⟩⟩ rfl,
   (c8_adapter_query "postgres" "db1").2.2 ⟨.ok, "", ⟨[], []⟩⟩ rfl⟩

/-! ## C9 — coercion idempotence -/

theorem coerce_value_idem (t : ColumnStorageType) (v : PyVal) :
    coerce_value t (coerce_value t v) = coerce_value t v := by
  cases t with
  | integer =>
    cases v with
    | none_ => rfl
    | int_ n => rfl
    | float_ q => rfl
    | str_ s =>
      rcases h : parse_int_string s with _ | n <;>
        simp [coerce_value, coerce_attempt, py_int, h]
  | float =>
    cases v with
    | none_ => rfl
    | int_ n => rfl
    | float_ q => rfl
    | str_ s =>
      rcases h : parse_float_string s with _ | q <;>
        simp [coerce_value, coerce_attempt, py_float, h]
  | text =>
    cases v <;> simp [coerce_value, coerce_attempt, py_str, py_render]

theorem format_record_idem (ts : List ColumnStorageType) (vs : List PyVal) :
    format_record ts (format_record ts vs) = format_record ts vs := by
  induction ts generalizing vs with
  | nil => rfl
  | cons t ts ih =>
    cases vs with
    | nil => rfl
    | cons v vs =>
      show coerce_value t (coerce_value t v) :: format_record ts (format_record ts vs)
        = coerce_value t v :: format_record ts vs
      rw [coerce_value_idem, ih]

/-- Claim C9: coercing a value that already has its column's inferred storage
type is a no-op, so running `create_table`'s per-row coercion pass twice on the
same result set yields exactly the rows of a single run; and a failed coercion
attempt keeps the raw value (the row and the call proceed). -/
theorem c9_coercion_idempotent :
    (∀ ts recs, format_records ts (format_records ts recs) = format_records ts recs) ∧
    (∀ t v, coerce_attempt t v = none → coerce_value t v = v) := by
  constructor
  · intro ts recs
    induction recs with
    | nil => rfl
    | cons r recs ih =>
      simp [format_records, format_record_idem] at ih ⊢
  · intro t v h
    cases v with
    | none_ => rfl
    | int_ n => simp [coerce_value, h]
    | float_ q => simp [coerce_value, h]
    | str_ s => simp [coerce_value, h]

/-- Claim C9 witness: a mixed row is unchanged by a second pass, and the
unparseable string `3.5` survives an Integer-column coercion untouched. -/
theorem c9_witness :
    format_records [.integer, .float, .text]
        (format_records [.integer, .float, .text] [[.str_ "3", .int_ 2, .float_ 3]]) =
      format_records [.integer, .float, .text] [[.str_ "3", .int_ 2, .float_ 3]] ∧
    coerce_value .integer (.str_ "3.5") = .str_ "3.5" :=
  ⟨c9_coercion_idempotent.1 [.integer, .float, .text] [[.str_ "3", .int_ 2, .float_ 3]],
   c9_coercion_idempotent.2 .integer (.str_ "3.5") (by decide)⟩

/-! ## C10 — trivial table metadata -/

/-- Claim C10: for every table name, `has_table` returns True and
`get_table_columns` returns the empty list — neither consults the connector,
so a caller cannot detect a missing table here. -/
theorem c10_table_metadata_trivial (tableName : String) :
    has_table tableName = true ∧ get_table_columns tableName = [] :=
  ⟨rfl, rfl⟩

end FedQuery
